import Mathlib

/-!
Shallow embedding of the hydroponics driver repository: MCP23017 relay and
GPIO expander boards (`mcp23017_boards/high_power_board.py`,
`mcp23017_boards/mid_power_board.py`) and the Atlas EZO sensor sessions
(`ec_sensor/atlas_ezo_ec_sensor.py`, `ec_sensor/ezo_ec_sensor.py`,
`ph_sensor/ezo_ph_sensor.py`, `pressure_sensor/ezo_pressure_sensor.py`,
`airtemhum_sensors/sensor_dht20.py`, `airtemhum_sensors/sensor_scd30.py`).

Python's unbounded integers are modelled by `Nat`; error tuples
`(error_flag, message, value)` are modelled by products; a raising transport
access is modelled by success flags on the transport state; every transport
access performed by an operation is recorded in an event log so that theorems
can speak about which accesses an operation performs.  Addresses inside
message strings are rendered in decimal rather than Python's hex formatting;
no claim depends on the address formatting inside a message.
-/

namespace Hydro

/-- Transport-level events of the MCP23017 board wrappers: each read of or
write to one of the three 16-bit registers of the expander chip. -/
inductive TEvent where
  | readGpio : TEvent
  | writeGpio : Nat → TEvent
  | readIodir : TEvent
  | writeIodir : Nat → TEvent
  | readGppu : TEvent
  | writeGppu : Nat → TEvent
deriving DecidableEq

/-- The three 16-bit hardware registers of one MCP23017 chip: value
(`gpio`), direction (`iodir`), and pull-up (`gppu`). -/
structure MCPRegs where
  gpio : Nat
  iodir : Nat
  gppu : Nat
deriving DecidableEq

/-- The bus transport as seen by one board wrapper: the chip's registers,
whether transport reads and writes succeed (a `false` flag models the
underlying library call raising), and the log of attempted accesses. -/
structure MCPBus where
  regs : MCPRegs
  readOk : Bool
  writeOk : Bool
  log : List TEvent
deriving DecidableEq

/-- Python `bits | (0x0001 << port)` / `bits & ~(0x0001 << port)`: the
read-modify-write bit update both `_set_bit` implementations compute. -/
def updateBit (bits : Nat) (port : Nat) (bit : Bool) : Nat :=
  if bit then bits ||| (1 <<< port) else Nat.ldiff bits (1 <<< port)

namespace MCP23017_RelayBoard

/-- `MCP23017_RelayBoard._read_gpio` (high_power_board.py): try to read
`self._board.gpio`; on an exception return the error tuple with value 0. -/
def read_gpio (t : MCPBus) : MCPBus × (Bool × String × Nat) :=
  let t1 := { t with log := t.log ++ [TEvent.readGpio] }
  if t.readOk then (t1, (false, "", t.regs.gpio))
  else (t1, (true, "Unable to execute read_gpio(): transport raised", 0x0000))

/-- `MCP23017_RelayBoard._write_gpio` (high_power_board.py): try to assign
`self._board.gpio = bits`; on an exception return the error tuple. -/
def write_gpio (t : MCPBus) (bits : Nat) : MCPBus × (Bool × String) :=
  let t1 := { t with log := t.log ++ [TEvent.writeGpio bits] }
  if t.writeOk then
    ({ t1 with regs := { t1.regs with gpio := bits } }, (false, ""))
  else (t1, (true, "Unable to execute write_gpio(bits): transport raised"))

/-- `MCP23017_RelayBoard._set_bit` (high_power_board.py lines 98-123):
read the whole gpio register, set or clear the requested bit, write the
whole register back.  No validation of `port` is performed. -/
def set_bit (t : MCPBus) (port : Nat) (bit : Bool) : MCPBus × (Bool × String) :=
  match read_gpio t with
  | (t1, (err, message, bits)) =>
    if err then (t1, (true, "Unable to execute set_bit()\n" ++ message))
    else
      let bits1 := updateBit bits port bit
      match write_gpio t1 bits1 with
      | (t2, (err2, message2)) =>
        if err2 then (t2, (true, "Unable to execute set_bit()\n" ++ message2))
        else (t2, (false, ""))

/-- `MCP23017_RelayBoard._get_bit` (high_power_board.py lines 125-140):
read the whole gpio register and return `bool((bits >> port) & 0x0001)`.
No validation of `port` is performed. -/
def get_bit (t : MCPBus) (port : Nat) : MCPBus × (Bool × String × Bool) :=
  match read_gpio t with
  | (t1, (err, message, bits)) =>
    if err then (t1, (true, "Unable to execute get_bit()\n" ++ message, false))
    else (t1, (false, "", bits.testBit port))

/-- `MCP23017_RelayBoard.open` (high_power_board.py lines 44-60):
`self._set_bit(port, True)` plus message wrapping. -/
def open_relay (t : MCPBus) (port : Nat) : MCPBus × (Bool × String) :=
  match set_bit t port true with
  | (t1, (err, message)) =>
    if err then
      (t1, (true, "Unable to execute open() relay at port " ++ toString port ++ message))
    else (t1, (false, ""))

/-- `MCP23017_RelayBoard.close` (high_power_board.py lines 26-42):
`self._set_bit(port, False)` plus message wrapping. -/
def close_relay (t : MCPBus) (port : Nat) : MCPBus × (Bool × String) :=
  match set_bit t port false with
  | (t1, (err, message)) =>
    if err then
      (t1, (true, "Unable to execute close() relay at port " ++ toString port ++ message))
    else (t1, (false, ""))

/-- `MCP23017_RelayBoard.is_open` (high_power_board.py lines 80-96): read
the bit with `_get_bit` and return `not bit` as the result value. -/
def is_open (t : MCPBus) (port : Nat) : MCPBus × (Bool × String × Bool) :=
  match get_bit t port with
  | (t1, (err, message, bit)) =>
    if err then
      (t1, (true, "Unable to execute is_open() relay at port " ++ toString port ++ "\n" ++ message, false))
    else (t1, (false, "", !bit))

/-- `MCP23017_RelayBoard.is_closed` (high_power_board.py lines 62-78): read
the bit with `_get_bit` and return it as the result value. -/
def is_closed (t : MCPBus) (port : Nat) : MCPBus × (Bool × String × Bool) :=
  match get_bit t port with
  | (t1, (err, message, bit)) =>
    if err then
      (t1, (true, "Unable to execute is_closed() relay at port " ++ toString port ++ "\n" ++ message, false))
    else (t1, (false, "", bit))

end MCP23017_RelayBoard

namespace MCP23017_GpioBoard

/-- `MCP23017_GpioBoard._read_gpio` (mid_power_board.py): try to read
`int(self._board.gpio)`; on an exception return the error tuple. -/
def read_gpio (t : MCPBus) : MCPBus × (Bool × String × Nat) :=
  let t1 := { t with log := t.log ++ [TEvent.readGpio] }
  if t.readOk then (t1, (false, "", t.regs.gpio))
  else (t1, (true, "Unable to execute read_gpio(): transport raised", 0x0000))

/-- `MCP23017_GpioBoard._write_gpio` (mid_power_board.py): try to assign
`self._board.gpio = bits`; on an exception return the error tuple. -/
def write_gpio (t : MCPBus) (bits : Nat) : MCPBus × (Bool × String) :=
  let t1 := { t with log := t.log ++ [TEvent.writeGpio bits] }
  if t.writeOk then
    ({ t1 with regs := { t1.regs with gpio := bits } }, (false, ""))
  else (t1, (true, "Unable to execute write_gpio(): transport raised"))

/-- `MCP23017_GpioBoard._set_bit` (mid_power_board.py lines 132-147): read
the whole gpio register, set or clear the requested bit, write the whole
register back.  Note: the source operates on the gpio (value) register,
not on the iodir (direction) or gppu (pull-up) registers, and performs no
validation of `port`. -/
def set_bit (t : MCPBus) (port : Nat) (bit : Bool) : MCPBus × (Bool × String) :=
  match read_gpio t with
  | (t1, (err, message, bits)) =>
    if err then (t1, (true, "Unable to execute set_bit().\n" ++ message))
    else
      let bits1 := updateBit bits port bit
      match write_gpio t1 bits1 with
      | (t2, (err2, message2)) =>
        if err2 then (t2, (true, "Unable to execute set_bit().\n" ++ message2))
        else (t2, (false, ""))

/-- `MCP23017_GpioBoard._get_bit` (mid_power_board.py lines 149-157): read
the whole gpio register and return `bool((bits >> port) & 1)`.  The error
branch of the source drops the inner message. -/
def get_bit (t : MCPBus) (port : Nat) : MCPBus × (Bool × String × Bool) :=
  match read_gpio t with
  | (t1, (err, _message, bits)) =>
    if err then (t1, (true, "Unable to execute get_bit().\n", false))
    else (t1, (false, "", bits.testBit port))

/-- `MCP23017_GpioBoard.set_as_input` (mid_power_board.py lines 26-39):
`self._set_bit(port, True)` plus message wrapping. -/
def set_as_input (t : MCPBus) (port : Nat) : MCPBus × (Bool × String) :=
  match set_bit t port true with
  | (t1, (err, message)) =>
    if err then
      (t1, (true, "Unable to execute set_as_input() at port " ++ toString port ++ "\n" ++ message))
    else (t1, (false, ""))

/-- `MCP23017_GpioBoard.set_as_output` (mid_power_board.py lines 41-54):
`self._set_bit(port, False)` plus message wrapping. -/
def set_as_output (t : MCPBus) (port : Nat) : MCPBus × (Bool × String) :=
  match set_bit t port false with
  | (t1, (err, message)) =>
    if err then
      (t1, (true, "Unable to execute set_as_output() at port " ++ toString port ++ "\n" ++ message))
    else (t1, (false, ""))

end MCP23017_GpioBoard

/-! ## Atlas EZO sensor sessions -/

/-- Device-level events of one sensor session: a bus scan, the construction
of the vendor device object (the configuration step), and the ASCII
command writes and reads against the device. -/
inductive SEvent where
  | scan : SEvent
  | construct : SEvent
  | devWrite : String → SEvent
  | devRead : SEvent
deriving DecidableEq

/-- Per-session state of one sensor driver object: the immutable bus
address (`self._address`) and the configured flag
(`self._sensor_configured`).  In every reachable state of the source the
`self._sensor` object is present exactly when the configured flag is set,
so the flag alone carries the session state. -/
structure Session where
  address : Nat
  configured : Bool
deriving DecidableEq

/-- Behaviour of the I2C transport and the device during one call: whether
the bus scan succeeds, which addresses it reports, whether constructing and
configuring the vendor device object succeeds, whether ASCII writes to the
device succeed, and what `self._sensor.read()` returns (`none` models the
read raising). -/
structure I2CEnv where
  scanOk : Bool
  devices : List Nat
  configOk : Bool
  writeOk : Bool
  readStr : Option String
deriving DecidableEq

/-- Value of a list of decimal digit characters, used by `parseDecimal`. -/
def digitsVal (cs : List Char) : Nat :=
  cs.foldl (fun acc c => 10 * acc + (c.toNat - '0'.toNat)) 0

/-- Models Python `float(s)` on the plain decimal strings the EZO devices
produce: optional sign, integer digits, optional fractional digits; `none`
models `float` raising `ValueError` on malformed text. -/
def parseDecimal (s : String) : Option ℚ :=
  let cs := s.toList
  let signAndRest : Bool × List Char :=
    match cs with
    | '-' :: rest => (true, rest)
    | '+' :: rest => (false, rest)
    | _ => (false, cs)
  let neg := signAndRest.1
  let body := signAndRest.2
  let intPart := body.takeWhile Char.isDigit
  let rest := body.dropWhile Char.isDigit
  let mag : Option ℚ :=
    match rest with
    | [] => if intPart.isEmpty then none else some (digitsVal intPart : ℚ)
    | '.' :: fracPart =>
      if fracPart.all Char.isDigit ∧ (intPart ≠ [] ∨ fracPart ≠ []) then
        some ((digitsVal intPart : ℚ) + (digitsVal fracPart : ℚ) / (10 : ℚ) ^ fracPart.length)
      else none
    | _ => none
  mag.map (fun v => if neg then -v else v)

namespace atlas_ezo_ec_sensor

/-- `AtlasEzoEcSensor.SENSOR_NAME` (atlas_ezo_ec_sensor.py). -/
def SENSOR_NAME : String := "Atlas EZO Electrical Conductivity Probe"

/-- `AtlasEzoEcSensor.INVALID_EC = -99.9` (atlas_ezo_ec_sensor.py line 20). -/
def INVALID_EC : ℚ := -999/10

/-- `AtlasEzoEcSensor.DEFAULT_ADDRESS` (atlas_ezo_ec_sensor.py). -/
def DEFAULT_ADDRESS : Nat := 0x64

/-- `AtlasEzoEcSensor._check_i2c_and_sensor` (atlas_ezo_ec_sensor.py lines
35-57): scan the bus; an exception during the scan yields the scan error,
an absent address yields the detection error. -/
def check_i2c_and_sensor (env : I2CEnv) (address : Nat) :
    (Bool × String) × List SEvent :=
  if env.scanOk = false then
    ((true, "Error scanning I2C bus"), [SEvent.scan])
  else if address ∉ env.devices then
    ((true, "Error detecting " ++ SENSOR_NAME ++ " (" ++ toString address ++ ")"),
     [SEvent.scan])
  else ((false, ""), [SEvent.scan])

/-- `AtlasEzoEcSensor._configure_sensor` (atlas_ezo_ec_sensor.py lines
59-88): clear the configured flag, run the detection check, then construct
the `AtlasI2C` device object; on success set the configured flag. -/
def configure_sensor (s : Session) (env : I2CEnv) :
    Session × (Bool × String) × List SEvent :=
  let s1 := { s with configured := false }
  match check_i2c_and_sensor env s.address with
  | ((err, message), ev) =>
    if err then (s1, (true, message), ev)
    else if env.configOk then
      ({ s with configured := true },
       (false, "Successfully configured " ++ SENSOR_NAME ++ " (" ++ toString s.address ++ ")"),
       ev ++ [SEvent.construct])
    else
      (s1,
       (true, "Error configuring " ++ SENSOR_NAME ++ " (" ++ toString s.address ++ ")"),
       ev ++ [SEvent.construct])

/-- `AtlasEzoEcSensor.read` (atlas_ezo_ec_sensor.py lines 90-129): run the
detection check, re-run configuration only if the configured flag is
clear, then inside the try block write the temperature compensation
command, write `R`, read and parse the response.  The except branch
returns the error tuple with `INVALID_EC` and leaves the session state
unchanged. -/
def read (s : Session) (env : I2CEnv) (temperature : String) :
    Session × (Bool × String × ℚ) × List SEvent :=
  match check_i2c_and_sensor env s.address with
  | ((err0, message0), ev0) =>
    if err0 then (s, (true, message0, INVALID_EC), ev0)
    else
      match (if s.configured = false then configure_sensor s env
             else (s, (false, ""), [])) with
      | (s1, (err1, message1), ev1) =>
        if err1 then (s1, (true, message1, INVALID_EC), ev0 ++ ev1)
        else
          let readErr := "Error reading " ++ SENSOR_NAME ++ " (" ++ toString s.address ++ ")"
          let ev2 := ev0 ++ ev1 ++ [SEvent.devWrite ("T," ++ temperature)]
          if env.writeOk = false then (s1, (true, readErr, INVALID_EC), ev2)
          else
            let ev3 := ev2 ++ [SEvent.devWrite "R", SEvent.devRead]
            match env.readStr with
            | none => (s1, (true, readErr, INVALID_EC), ev3)
            | some str =>
              match parseDecimal str with
              | none => (s1, (true, readErr, INVALID_EC), ev3)
              | some v => (s1, (false, "", v), ev3)

end atlas_ezo_ec_sensor

namespace ezo_ph_sensor

/-- `self._sensor_name` of `AtlasEzoPhSensor` (ezo_ph_sensor.py line 23). -/
def sensor_name : String := "Atlas EZO pH Probe"

/-- `AtlasEzoPhSensor._check_i2c_and_sensor` (ezo_ph_sensor.py lines
29-48). -/
def check_i2c_and_sensor (env : I2CEnv) (address : Nat) :
    (Bool × String) × List SEvent :=
  if env.scanOk = false then
    ((true, "Error scanning I2C bus"), [SEvent.scan])
  else if address ∉ env.devices then
    ((true, "Error detecting " ++ sensor_name ++ " (" ++ toString address ++ ")"),
     [SEvent.scan])
  else ((false, ""), [SEvent.scan])

/-- `AtlasEzoPhSensor._configure_sensor` (ezo_ph_sensor.py lines 50-73). -/
def configure_sensor (s : Session) (env : I2CEnv) :
    Session × (Bool × String) × List SEvent :=
  let s1 := { s with configured := false }
  match check_i2c_and_sensor env s.address with
  | ((err, message), ev) =>
    if err then (s1, (true, message), ev)
    else if env.configOk then
      ({ s with configured := true },
       (false, "Successfully configured " ++ sensor_name ++ " (" ++ toString s.address ++ ")"),
       ev ++ [SEvent.construct])
    else
      (s1,
       (true, "Error configuring " ++ sensor_name ++ " (" ++ toString s.address ++ ")"),
       ev ++ [SEvent.construct])

/-- `AtlasEzoPhSensor.read` (ezo_ph_sensor.py lines 75-111): detection
check, configuration only when the configured flag is clear, then inside
the try block the `T,` write, the `R` write and the parsed read.  The
except branch returns `(True, message, -99.9)` and leaves the session
state unchanged. -/
def read (s : Session) (env : I2CEnv) (temperature : String) :
    Session × (Bool × String × ℚ) × List SEvent :=
  match check_i2c_and_sensor env s.address with
  | ((err0, message0), ev0) =>
    if err0 then (s, (true, message0, -999/10), ev0)
    else
      match (if s.configured = false then configure_sensor s env
             else (s, (false, ""), [])) with
      | (s1, (err1, message1), ev1) =>
        if err1 then (s1, (true, message1, -999/10), ev0 ++ ev1)
        else
          let readErr := "Error reading " ++ sensor_name ++ " (" ++ toString s.address ++ ")"
          let ev2 := ev0 ++ ev1 ++ [SEvent.devWrite ("T," ++ temperature)]
          if env.writeOk = false then (s1, (true, readErr, -999/10), ev2)
          else
            let ev3 := ev2 ++ [SEvent.devWrite "R", SEvent.devRead]
            match env.readStr with
            | none => (s1, (true, readErr, -999/10), ev3)
            | some str =>
              match parseDecimal str with
              | none => (s1, (true, readErr, -999/10), ev3)
              | some v => (s1, (false, "", v), ev3)

/-- The invalid-command message of `AtlasEzoPhSensor.calibrate`
(ezo_ph_sensor.py line 151). -/
def invalid_command_message (address : Nat) : String :=
  "Command is not valid: input \"mid, low, high, or clear\". at " ++
    sensor_name ++ " (" ++ toString address ++ ")"

/-- `AtlasEzoPhSensor.calibrate` (ezo_ph_sensor.py lines 113-164):
detection check, configuration only when the configured flag is clear,
then inside the try block: for `mid`/`low`/`high` write
`Cal,<command>,<pH>`, for `clear` write `Cal,clear`, otherwise return the
invalid-command error tuple with value `"0"` without touching the device;
afterwards write `Cal,?` and read the calibration status back. -/
def calibrate (s : Session) (env : I2CEnv) (command : String) (pH : String) :
    Session × (Bool × String × String) × List SEvent :=
  match check_i2c_and_sensor env s.address with
  | ((err0, message0), ev0) =>
    if err0 then (s, (true, message0, ""), ev0)
    else
      match (if s.configured = false then configure_sensor s env
             else (s, (false, ""), [])) with
      | (s1, (err1, message1), ev1) =>
        if err1 then (s1, (true, message1, ""), ev0 ++ ev1)
        else
          let readErr := "Error reading " ++ sensor_name ++ " (" ++ toString s.address ++ ")"
          if command = "mid" ∨ command = "low" ∨ command = "high" then
            let ev2 := ev0 ++ ev1 ++ [SEvent.devWrite ("Cal," ++ command ++ "," ++ pH)]
            if env.writeOk = false then (s1, (true, readErr, "0"), ev2)
            else
              let ev3 := ev2 ++ [SEvent.devWrite "Cal,?", SEvent.devRead]
              match env.readStr with
              | none => (s1, (true, readErr, "0"), ev3)
              | some cal_status => (s1, (false, "", cal_status), ev3)
          else if command = "clear" then
            let ev2 := ev0 ++ ev1 ++ [SEvent.devWrite ("Cal," ++ command)]
            if env.writeOk = false then (s1, (true, readErr, "0"), ev2)
            else
              let ev3 := ev2 ++ [SEvent.devWrite "Cal,?", SEvent.devRead]
              match env.readStr with
              | none => (s1, (true, readErr, "0"), ev3)
              | some cal_status => (s1, (false, "", cal_status), ev3)
          else
            (s1, (true, invalid_command_message s.address, "0"), ev0 ++ ev1)

end ezo_ph_sensor

namespace ezo_ec_sensor

/-- `AtlasEzoEcSensor.SENSOR_NAME` (ezo_ec_sensor.py line 17). -/
def SENSOR_NAME : String := "Atlas EZO Electrical Conductivity Probe"

/-- `AtlasEzoEcSensor._check_i2c_and_sensor` (ezo_ec_sensor.py lines
35-57). -/
def check_i2c_and_sensor (env : I2CEnv) (address : Nat) :
    (Bool × String) × List SEvent :=
  if env.scanOk = false then
    ((true, "Error scanning I2C bus"), [SEvent.scan])
  else if address ∉ env.devices then
    ((true, "Error detecting " ++ SENSOR_NAME ++ " (" ++ toString address ++ ")"),
     [SEvent.scan])
  else ((false, ""), [SEvent.scan])

/-- `AtlasEzoEcSensor._configure_sensor` (ezo_ec_sensor.py lines 59-88). -/
def configure_sensor (s : Session) (env : I2CEnv) :
    Session × (Bool × String) × List SEvent :=
  let s1 := { s with configured := false }
  match check_i2c_and_sensor env s.address with
  | ((err, message), ev) =>
    if err then (s1, (true, message), ev)
    else if env.configOk then
      ({ s with configured := true },
       (false, "Successfully configured " ++ SENSOR_NAME ++ " (" ++ toString s.address ++ ")"),
       ev ++ [SEvent.construct])
    else
      (s1,
       (true, "Error configuring " ++ SENSOR_NAME ++ " (" ++ toString s.address ++ ")"),
       ev ++ [SEvent.construct])

/-- `AtlasEzoEcSensor.calibrate` (ezo_ec_sensor.py lines 131-189).  Unlike
every other driver operation, the calibration-command writes at lines
159-172 stand OUTSIDE any try/except, so a raising transport write
propagates out of the method; this is modelled by the `Except.error`
result.  Moreover the invalid-command branch (line 175) and the except
branch (line 186) interpolate `self._sensor_name`, an attribute this class
never defines (it only has the class constant `SENSOR_NAME`), so those
branches raise `AttributeError` instead of returning their tuples. -/
def calibrate (s : Session) (env : I2CEnv) (command : String) (ec : String) :
    Except String (Session × (Bool × String × String) × List SEvent) :=
  match check_i2c_and_sensor env s.address with
  | ((err0, message0), ev0) =>
    if err0 then .ok (s, (true, message0, ""), ev0)
    else
      match (if s.configured = false then configure_sensor s env
             else (s, (false, ""), [])) with
      | (s1, (err1, message1), ev1) =>
        if err1 then .ok (s1, (true, message1, ""), ev0 ++ ev1)
        else
          let afterCal := fun (ev2 : List SEvent) =>
            let ev3 := ev2 ++ [SEvent.devWrite "Cal,?", SEvent.devRead]
            match env.readStr with
            | none =>
              -- except branch formats f-string with the undefined
              -- self._sensor_name: AttributeError propagates
              Except.error "AttributeError: AtlasEzoEcSensor has no attribute _sensor_name"
            | some cal_status => Except.ok (s1, (false, "", cal_status), ev3)
          if command = "low" ∨ command = "high" then
            -- write outside try/except: a raising write propagates
            if env.writeOk = false then
              .error "uncaught transport exception in calibrate()"
            else afterCal (ev0 ++ ev1 ++ [SEvent.devWrite ("Cal," ++ command ++ "," ++ ec)])
          else if command = "dry" then
            if env.writeOk = false then
              .error "uncaught transport exception in calibrate()"
            else afterCal (ev0 ++ ev1 ++ [SEvent.devWrite ("Cal," ++ command)])
          else if command = "clear" then
            if env.writeOk = false then
              .error "uncaught transport exception in calibrate()"
            else afterCal (ev0 ++ ev1 ++ [SEvent.devWrite ("Cal," ++ command)])
          else
            -- error message formats the undefined self._sensor_name
            .error "AttributeError: AtlasEzoEcSensor has no attribute _sensor_name"

end ezo_ec_sensor

namespace ezo_pressure_sensor

/-- `self._sensor_name` of `AtlasEzoPressureSensor`
(ezo_pressure_sensor.py line 19). -/
def sensor_name : String := "Atlas EZO Pressure Sensor"

/-- `AtlasEzoPressureSensor._check_i2c_and_sensor` (ezo_pressure_sensor.py
lines 25-44). -/
def check_i2c_and_sensor (env : I2CEnv) (address : Nat) :
    (Bool × String) × List SEvent :=
  if env.scanOk = false then
    ((true, "Error scanning I2C bus"), [SEvent.scan])
  else if address ∉ env.devices then
    ((true, "Error detecting " ++ sensor_name ++ " (" ++ toString address ++ ")"),
     [SEvent.scan])
  else ((false, ""), [SEvent.scan])

/-- `AtlasEzoPressureSensor._configure_sensor` (ezo_pressure_sensor.py
lines 46-76): detection check, then inside the try block the device
construction and the two unit/decimals configuration writes. -/
def configure_sensor (s : Session) (env : I2CEnv) :
    Session × (Bool × String) × List SEvent :=
  let s1 := { s with configured := false }
  match check_i2c_and_sensor env s.address with
  | ((err, message), ev) =>
    if err then (s1, (true, message), ev)
    else
      let cfgErr := "Error configuring " ++ sensor_name ++ " (" ++ toString s.address ++ ")"
      if env.configOk = false then (s1, (true, cfgErr), ev ++ [SEvent.construct])
      else
        let ev2 := ev ++ [SEvent.construct, SEvent.devWrite "U,cmh2o"]
        if env.writeOk = false then (s1, (true, cfgErr), ev2)
        else
          let ev3 := ev2 ++ [SEvent.devWrite "Dec,1"]
          ({ s with configured := true },
           (false, "Successfully configured " ++ sensor_name ++ " (" ++ toString s.address ++ ")"),
           ev3)

/-- `AtlasEzoPressureSensor.read` (ezo_pressure_sensor.py lines 78-104):
detection check, configuration only when the configured flag is clear,
then inside the try block the `R` write and the parsed read; every failure
in the try block returns `(True, message, -99.9)`. -/
def read (s : Session) (env : I2CEnv) :
    Session × (Bool × String × ℚ) × List SEvent :=
  match check_i2c_and_sensor env s.address with
  | ((err0, message0), ev0) =>
    if err0 then (s, (true, message0, -999/10), ev0)
    else
      match (if s.configured = false then configure_sensor s env
             else (s, (false, ""), [])) with
      | (s1, (err1, message1), ev1) =>
        if err1 then (s1, (true, message1, -999/10), ev0 ++ ev1)
        else
          let readErr := "Error reading " ++ sensor_name ++ " (" ++ toString s.address ++ ")"
          let ev2 := ev0 ++ ev1 ++ [SEvent.devWrite "R"]
          if env.writeOk = false then (s1, (true, readErr, -999/10), ev2)
          else
            let ev3 := ev2 ++ [SEvent.devRead]
            match env.readStr with
            | none => (s1, (true, readErr, -999/10), ev3)
            | some str =>
              match parseDecimal str with
              | none => (s1, (true, readErr, -999/10), ev3)
              | some v => (s1, (false, "", v), ev3)

/-- `AtlasEzoPressureSensor.set_zero_point` (ezo_pressure_sensor.py lines
106-118): a single `Cal,0` write fully wrapped in try/except; any failure
returns the error tuple. -/
def set_zero_point (s : Session) (env : I2CEnv) :
    Session × (Bool × String) × List SEvent :=
  let ev := [SEvent.devWrite "Cal,0"]
  if env.writeOk then (s, (false, ""), ev)
  else
    (s, (true, "Error setting zero point for " ++ sensor_name ++ " (" ++ toString s.address ++ ")"), ev)

end ezo_pressure_sensor

namespace sensor_dht20

/-- `DHT20Sensor.SENSOR_NAME` (sensor_dht20.py line 16). -/
def SENSOR_NAME : String := "DHT20 Air T-RH Sensor"

/-- `DHT20Sensor.INVALID_TEMPERATURE = -99.9` (sensor_dht20.py line 17). -/
def INVALID_TEMPERATURE : ℚ := -999/10

/-- `DHT20Sensor.INVALID_HUMIDITY = -9` (sensor_dht20.py line 18). -/
def INVALID_HUMIDITY : Int := -9

/-- `DHT20Sensor.INVALID_CO2 = -9` (sensor_dht20.py line 19). -/
def INVALID_CO2 : Int := -9

/-- Behaviour of the transport and the AHT20 device during one call:
whether the scan succeeds, the addresses it reports, whether constructing
and calibrating the device object succeeds, whether reading the
measurement properties succeeds, and the measured values. -/
structure DHTEnv where
  scanOk : Bool
  devices : List Nat
  configOk : Bool
  measOk : Bool
  temperature : ℚ
  relative_humidity : Int
deriving DecidableEq

/-- `DHT20Sensor._check_i2c_and_sensor` (sensor_dht20.py lines 34-53). -/
def check_i2c_and_sensor (env : DHTEnv) (address : Nat) : Bool × String :=
  if env.scanOk = false then (true, "Error scanning I2C bus")
  else if address ∉ env.devices then
    (true, "Error detecting " ++ SENSOR_NAME ++ " (" ++ toString address ++ ")")
  else (false, "")

/-- `DHT20Sensor._configure_sensor` (sensor_dht20.py lines 55-85). -/
def configure_sensor (s : Session) (env : DHTEnv) : Session × (Bool × String) :=
  let s1 := { s with configured := false }
  match check_i2c_and_sensor env s.address with
  | (err, message) =>
    if err then (s1, (true, message))
    else if env.configOk then
      ({ s with configured := true },
       (false, "Successfully configured " ++ SENSOR_NAME ++ " (" ++ toString s.address ++ ")"))
    else
      (s1, (true, "Error configuring " ++ SENSOR_NAME ++ " (" ++ toString s.address ++ ")"))

/-- `DHT20Sensor.read` (sensor_dht20.py lines 87-116): every failure path
returns the error flag paired with the three sentinels
`INVALID_TEMPERATURE`, `INVALID_HUMIDITY`, `INVALID_CO2`; on success the
CO2 slot is the constant 0. -/
def read (s : Session) (env : DHTEnv) :
    Session × (Bool × String × ℚ × Int × Int) :=
  match check_i2c_and_sensor env s.address with
  | (err0, message0) =>
    if err0 then (s, (true, message0, INVALID_TEMPERATURE, INVALID_HUMIDITY, INVALID_CO2))
    else
      match (if s.configured = false then configure_sensor s env
             else (s, (false, ""))) with
      | (s1, (err1, message1)) =>
        if err1 then
          (s1, (true, message1, INVALID_TEMPERATURE, INVALID_HUMIDITY, INVALID_CO2))
        else if env.measOk then
          (s1, (false, "", env.temperature, env.relative_humidity, 0))
        else
          (s1, (true, "Error reading " ++ SENSOR_NAME ++ " (" ++ toString s.address ++ ")",
                INVALID_TEMPERATURE, INVALID_HUMIDITY, INVALID_CO2))

end sensor_dht20

namespace sensor_scd30

/-- `SCD30Sensor.SENSOR_NAME` (sensor_scd30.py line 17). -/
def SENSOR_NAME : String := "SCD30 Air CO2-T-RH Sensor"

/-- `SCD30Sensor.INVALID_TEMPERATURE = -99.9` (sensor_scd30.py line 18). -/
def INVALID_TEMPERATURE : ℚ := -999/10

/-- `SCD30Sensor.INVALID_HUMIDITY = -99` (sensor_scd30.py line 19). -/
def INVALID_HUMIDITY : Int := -99

/-- `SCD30Sensor.INVALID_CO2 = -99` (sensor_scd30.py line 20). -/
def INVALID_CO2 : Int := -99

/-- Behaviour of the transport and the SCD30 device during one call. -/
structure SCDEnv where
  scanOk : Bool
  devices : List Nat
  configOk : Bool
  measOk : Bool
  dataAvailable : Bool
  temperature : ℚ
  relative_humidity : Int
  co2 : Int
deriving DecidableEq

/-- `SCD30Sensor._check_i2c_and_sensor` (sensor_scd30.py lines 35-55). -/
def check_i2c_and_sensor (env : SCDEnv) (address : Nat) : Bool × String :=
  if env.scanOk = false then (true, "Error scanning I2C bus")
  else if address ∉ env.devices then
    (true, "Error detecting " ++ SENSOR_NAME ++ " (" ++ toString address ++ ")")
  else (false, "")

/-- `SCD30Sensor._configure_sensor` (sensor_scd30.py lines 57-90). -/
def configure_sensor (s : Session) (env : SCDEnv) : Session × (Bool × String) :=
  let s1 := { s with configured := false }
  match check_i2c_and_sensor env s.address with
  | (err, message) =>
    if err then (s1, (true, message))
    else if env.configOk then
      ({ s with configured := true },
       (false, "Successfully configured " ++ SENSOR_NAME ++ " (" ++ toString s.address ++ ")"))
    else
      (s1, (true, "Error configuring " ++ SENSOR_NAME ++ " (" ++ toString s.address ++ ")"))

/-- `SCD30Sensor.read` (sensor_scd30.py lines 92-135): every failure path
(detection, configuration, no data available, raising measurement access)
returns the error flag paired with the three sentinels
`INVALID_TEMPERATURE`, `INVALID_HUMIDITY`, `INVALID_CO2`. -/
def read (s : Session) (env : SCDEnv) :
    Session × (Bool × String × ℚ × Int × Int) :=
  match check_i2c_and_sensor env s.address with
  | (err0, message0) =>
    if err0 then (s, (true, message0, INVALID_TEMPERATURE, INVALID_HUMIDITY, INVALID_CO2))
    else
      match (if s.configured = false then configure_sensor s env
             else (s, (false, ""))) with
      | (s1, (err1, message1)) =>
        if err1 then
          (s1, (true, message1, INVALID_TEMPERATURE, INVALID_HUMIDITY, INVALID_CO2))
        else if env.measOk = false then
          (s1, (true, "Error reading " ++ SENSOR_NAME ++ " (" ++ toString s.address ++ ")",
                INVALID_TEMPERATURE, INVALID_HUMIDITY, INVALID_CO2))
        else if env.dataAvailable then
          (s1, (false, "", env.temperature, env.relative_humidity, env.co2))
        else
          (s1, (true, SENSOR_NAME ++ " (" ++ toString s.address ++ ") has no data available",
                INVALID_TEMPERATURE, INVALID_HUMIDITY, INVALID_CO2))

end sensor_scd30

/-! ## Helper lemmas about the read-modify-write bit update -/

/-- The bit written by `updateBit` is read back at the same position. -/
theorem updateBit_testBit_self (g port : Nat) (b : Bool) :
    (updateBit g port b).testBit port = b := by
  cases b <;>
    simp [updateBit, Nat.testBit_lor, Nat.testBit_ldiff, Nat.shiftLeft_eq,
      Nat.testBit_two_pow_self]

/-- `updateBit` leaves every other bit position unchanged. -/
theorem updateBit_testBit_other (g port q : Nat) (b : Bool) (h : q ≠ port) :
    (updateBit g port b).testBit q = g.testBit q := by
  cases b <;>
    simp [updateBit, Nat.testBit_lor, Nat.testBit_ldiff, Nat.shiftLeft_eq,
      Nat.testBit_two_pow_of_ne (Ne.symm h)]

/-- A `read()` call of the EC driver on a session whose configured flag is
set never runs the configuration routine: no device-construction event
appears in its trace, for any transport behaviour. -/
theorem construct_not_mem_ec_read_trace (s : Session) (env : I2CEnv) (temp : String)
    (hconf : s.configured = true) :
    SEvent.construct ∉ (atlas_ezo_ec_sensor.read s env temp).2.2 := by
  by_cases h1 : env.scanOk = false
  · simp [atlas_ezo_ec_sensor.read, atlas_ezo_ec_sensor.check_i2c_and_sensor, h1]
  · by_cases h2 : s.address ∈ env.devices
    · by_cases h3 : env.writeOk = false
      · simp [atlas_ezo_ec_sensor.read, atlas_ezo_ec_sensor.check_i2c_and_sensor,
          hconf, h1, h2, h3]
      · rcases h4 : env.readStr with _ | str
        · simp [atlas_ezo_ec_sensor.read, atlas_ezo_ec_sensor.check_i2c_and_sensor,
            hconf, h1, h2, h3, h4]
        · rcases h5 : parseDecimal str with _ | v <;>
            simp [atlas_ezo_ec_sensor.read, atlas_ezo_ec_sensor.check_i2c_and_sensor,
              hconf, h1, h2, h3, h4, h5]
    · simp [atlas_ezo_ec_sensor.read, atlas_ezo_ec_sensor.check_i2c_and_sensor, h1, h2]

/-- Whenever a `read()` call of the EC driver returns with the error flag
set — on any session state and any transport behaviour — the value slot of
the returned tuple is the sentinel `INVALID_EC`. -/
theorem ec_read_error_value (s : Session) (env : I2CEnv) (temp : String) :
    (atlas_ezo_ec_sensor.read s env temp).2.1.1 = true →
    (atlas_ezo_ec_sensor.read s env temp).2.1.2.2 = atlas_ezo_ec_sensor.INVALID_EC := by
  by_cases h1 : env.scanOk = false
  · simp [atlas_ezo_ec_sensor.read, atlas_ezo_ec_sensor.check_i2c_and_sensor, h1]
  · by_cases h2 : s.address ∈ env.devices
    · by_cases hc : s.configured = false
      · by_cases h3 : env.configOk = true
        · by_cases h4 : env.writeOk = false
          · simp [atlas_ezo_ec_sensor.read, atlas_ezo_ec_sensor.check_i2c_and_sensor,
              atlas_ezo_ec_sensor.configure_sensor, hc, h1, h2, h3, h4]
          · rcases h5 : env.readStr with _ | str
            · simp [atlas_ezo_ec_sensor.read, atlas_ezo_ec_sensor.check_i2c_and_sensor,
                atlas_ezo_ec_sensor.configure_sensor, hc, h1, h2, h3, h4, h5]
            · rcases h6 : parseDecimal str with _ | v <;>
                simp [atlas_ezo_ec_sensor.read, atlas_ezo_ec_sensor.check_i2c_and_sensor,
                  atlas_ezo_ec_sensor.configure_sensor, hc, h1, h2, h3, h4, h5, h6]
        · simp [atlas_ezo_ec_sensor.read, atlas_ezo_ec_sensor.check_i2c_and_sensor,
            atlas_ezo_ec_sensor.configure_sensor, hc, h1, h2, h3]
      · by_cases h4 : env.writeOk = false
        · simp [atlas_ezo_ec_sensor.read, atlas_ezo_ec_sensor.check_i2c_and_sensor,
            hc, h1, h2, h4]
        · rcases h5 : env.readStr with _ | str
          · simp [atlas_ezo_ec_sensor.read, atlas_ezo_ec_sensor.check_i2c_and_sensor,
              hc, h1, h2, h4, h5]
          · rcases h6 : parseDecimal str with _ | v <;>
              simp [atlas_ezo_ec_sensor.read, atlas_ezo_ec_sensor.check_i2c_and_sensor,
                hc, h1, h2, h4, h5, h6]
    · simp [atlas_ezo_ec_sensor.read, atlas_ezo_ec_sensor.check_i2c_and_sensor, h1, h2]

/-- Whenever a `read()` call of the pH driver returns with the error flag
set — on any session state and any transport behaviour — the value slot of
the returned tuple is the sentinel −99.9. -/
theorem ph_read_error_value (s : Session) (env : I2CEnv) (temp : String) :
    (ezo_ph_sensor.read s env temp).2.1.1 = true →
    (ezo_ph_sensor.read s env temp).2.1.2.2 = -999/10 := by
  by_cases h1 : env.scanOk = false
  · simp [ezo_ph_sensor.read, ezo_ph_sensor.check_i2c_and_sensor, h1]
  · by_cases h2 : s.address ∈ env.devices
    · by_cases hc : s.configured = false
      · by_cases h3 : env.configOk = true
        · by_cases h4 : env.writeOk = false
          · simp [ezo_ph_sensor.read, ezo_ph_sensor.check_i2c_and_sensor,
              ezo_ph_sensor.configure_sensor, hc, h1, h2, h3, h4]
          · rcases h5 : env.readStr with _ | str
            · simp [ezo_ph_sensor.read, ezo_ph_sensor.check_i2c_and_sensor,
                ezo_ph_sensor.configure_sensor, hc, h1, h2, h3, h4, h5]
            · rcases h6 : parseDecimal str with _ | v <;>
                simp [ezo_ph_sensor.read, ezo_ph_sensor.check_i2c_and_sensor,
                  ezo_ph_sensor.configure_sensor, hc, h1, h2, h3, h4, h5, h6]
        · simp [ezo_ph_sensor.read, ezo_ph_sensor.check_i2c_and_sensor,
            ezo_ph_sensor.configure_sensor, hc, h1, h2, h3]
      · by_cases h4 : env.writeOk = false
        · simp [ezo_ph_sensor.read, ezo_ph_sensor.check_i2c_and_sensor, hc, h1, h2, h4]
        · rcases h5 : env.readStr with _ | str
          · simp [ezo_ph_sensor.read, ezo_ph_sensor.check_i2c_and_sensor,
              hc, h1, h2, h4, h5]
          · rcases h6 : parseDecimal str with _ | v <;>
              simp [ezo_ph_sensor.read, ezo_ph_sensor.check_i2c_and_sensor,
                hc, h1, h2, h4, h5, h6]
    · simp [ezo_ph_sensor.read, ezo_ph_sensor.check_i2c_and_sensor, h1, h2]

/-- Whenever a `read()` call of the pressure driver returns with the error
flag set — on any session state and any transport behaviour — the value
slot of the returned tuple is the sentinel −99.9. -/
theorem pressure_read_error_value (s : Session) (env : I2CEnv) :
    (ezo_pressure_sensor.read s env).2.1.1 = true →
    (ezo_pressure_sensor.read s env).2.1.2.2 = -999/10 := by
  by_cases h1 : env.scanOk = false
  · simp [ezo_pressure_sensor.read, ezo_pressure_sensor.check_i2c_and_sensor, h1]
  · by_cases h2 : s.address ∈ env.devices
    · by_cases hc : s.configured = false
      · by_cases h3 : env.configOk = true
        · by_cases h4 : env.writeOk = false
          · simp [ezo_pressure_sensor.read, ezo_pressure_sensor.check_i2c_and_sensor,
              ezo_pressure_sensor.configure_sensor, hc, h1, h2, h3, h4]
          · rcases h5 : env.readStr with _ | str
            · simp [ezo_pressure_sensor.read, ezo_pressure_sensor.check_i2c_and_sensor,
                ezo_pressure_sensor.configure_sensor, hc, h1, h2, h3, h4, h5]
            · rcases h6 : parseDecimal str with _ | v <;>
                simp [ezo_pressure_sensor.read, ezo_pressure_sensor.check_i2c_and_sensor,
                  ezo_pressure_sensor.configure_sensor, hc, h1, h2, h3, h4, h5, h6]
        · simp [ezo_pressure_sensor.read, ezo_pressure_sensor.check_i2c_and_sensor,
            ezo_pressure_sensor.configure_sensor, hc, h1, h2, h3]
      · by_cases h4 : env.writeOk = false
        · simp [ezo_pressure_sensor.read, ezo_pressure_sensor.check_i2c_and_sensor,
            hc, h1, h2, h4]
        · rcases h5 : env.readStr with _ | str
          · simp [ezo_pressure_sensor.read, ezo_pressure_sensor.check_i2c_and_sensor,
              hc, h1, h2, h4, h5]
          · rcases h6 : parseDecimal str with _ | v <;>
              simp [ezo_pressure_sensor.read, ezo_pressure_sensor.check_i2c_and_sensor,
                hc, h1, h2, h4, h5, h6]
    · simp [ezo_pressure_sensor.read, ezo_pressure_sensor.check_i2c_and_sensor, h1, h2]

/-- Whenever a `read()` call of the DHT20 driver returns with the error
flag set — on any session state and any transport behaviour — the three
value slots of the returned tuple are the sentinels
`INVALID_TEMPERATURE`, `INVALID_HUMIDITY`, `INVALID_CO2`. -/
theorem dht20_read_error_sentinels (s : Session) (env : sensor_dht20.DHTEnv) :
    (sensor_dht20.read s env).2.1 = true →
    (sensor_dht20.read s env).2.2.2.1 = sensor_dht20.INVALID_TEMPERATURE ∧
    (sensor_dht20.read s env).2.2.2.2.1 = sensor_dht20.INVALID_HUMIDITY ∧
    (sensor_dht20.read s env).2.2.2.2.2 = sensor_dht20.INVALID_CO2 := by
  by_cases h1 : env.scanOk = false
  · simp [sensor_dht20.read, sensor_dht20.check_i2c_and_sensor, h1]
  · by_cases h2 : s.address ∈ env.devices
    · by_cases hc : s.configured = false
      · by_cases h3 : env.configOk = true <;> by_cases h4 : env.measOk = true <;>
          simp [sensor_dht20.read, sensor_dht20.check_i2c_and_sensor,
            sensor_dht20.configure_sensor, hc, h1, h2, h3, h4]
      · by_cases h4 : env.measOk = true <;>
          simp [sensor_dht20.read, sensor_dht20.check_i2c_and_sensor, hc, h1, h2, h4]
    · simp [sensor_dht20.read, sensor_dht20.check_i2c_and_sensor, h1, h2]

/-- Whenever a `read()` call of the SCD30 driver returns with the error
flag set — on any session state and any transport behaviour, including the
no-data-available path — the three value slots of the returned tuple are
the sentinels `INVALID_TEMPERATURE`, `INVALID_HUMIDITY`, `INVALID_CO2`. -/
theorem scd30_read_error_sentinels (s : Session) (env : sensor_scd30.SCDEnv) :
    (sensor_scd30.read s env).2.1 = true →
    (sensor_scd30.read s env).2.2.2.1 = sensor_scd30.INVALID_TEMPERATURE ∧
    (sensor_scd30.read s env).2.2.2.2.1 = sensor_scd30.INVALID_HUMIDITY ∧
    (sensor_scd30.read s env).2.2.2.2.2 = sensor_scd30.INVALID_CO2 := by
  by_cases h1 : env.scanOk = false
  · simp [sensor_scd30.read, sensor_scd30.check_i2c_and_sensor, h1]
  · by_cases h2 : s.address ∈ env.devices
    · by_cases hc : s.configured = false
      · by_cases h3 : env.configOk = true <;> by_cases h4 : env.measOk = false <;>
          by_cases h5 : env.dataAvailable = true <;>
          simp [sensor_scd30.read, sensor_scd30.check_i2c_and_sensor,
            sensor_scd30.configure_sensor, hc, h1, h2, h3, h4, h5]
      · by_cases h4 : env.measOk = false <;> by_cases h5 : env.dataAvailable = true <;>
          simp [sensor_scd30.read, sensor_scd30.check_i2c_and_sensor, hc, h1, h2, h4, h5]
    · simp [sensor_scd30.read, sensor_scd30.check_i2c_and_sensor, h1, h2]

/-- A `read()` call of the pH driver on a session whose configured flag is
set never runs the configuration routine: no device-construction event
appears in its trace, for any transport behaviour. -/
theorem construct_not_mem_ph_read_trace (s : Session) (env : I2CEnv) (temp : String)
    (hconf : s.configured = true) :
    SEvent.construct ∉ (ezo_ph_sensor.read s env temp).2.2 := by
  by_cases h1 : env.scanOk = false
  · simp [ezo_ph_sensor.read, ezo_ph_sensor.check_i2c_and_sensor, h1]
  · by_cases h2 : s.address ∈ env.devices
    · by_cases h3 : env.writeOk = false
      · simp [ezo_ph_sensor.read, ezo_ph_sensor.check_i2c_and_sensor, hconf, h1, h2, h3]
      · rcases h4 : env.readStr with _ | str
        · simp [ezo_ph_sensor.read, ezo_ph_sensor.check_i2c_and_sensor,
            hconf, h1, h2, h3, h4]
        · rcases h5 : parseDecimal str with _ | v <;>
            simp [ezo_ph_sensor.read, ezo_ph_sensor.check_i2c_and_sensor,
              hconf, h1, h2, h3, h4, h5]
    · simp [ezo_ph_sensor.read, ezo_ph_sensor.check_i2c_and_sensor, h1, h2]

end Hydro

namespace Hydro

/-! ## Claim theorems -/

/-- C2 (code_bug evaluation): on a GPIO board whose direction, pull-up and
value registers are all zero and whose transport succeeds,
`set_as_input(3)` reports success, yet it leaves the `iodir` (direction)
and `gppu` (pull-up) registers untouched and instead sets bit 3 of the
`gpio` value register — the opposite of what the claim states. -/
theorem C2_set_as_input_writes_value_register :
    ((MCP23017_GpioBoard.set_as_input ⟨⟨0, 0, 0⟩, true, true, []⟩ 3).2.1 = false) ∧
    ((MCP23017_GpioBoard.set_as_input ⟨⟨0, 0, 0⟩, true, true, []⟩ 3).1.regs.iodir = 0) ∧
    ((MCP23017_GpioBoard.set_as_input ⟨⟨0, 0, 0⟩, true, true, []⟩ 3).1.regs.gppu = 0) ∧
    ((MCP23017_GpioBoard.set_as_input ⟨⟨0, 0, 0⟩, true, true, []⟩ 3).1.regs.gpio = 8) := by
  decide

/-- C3 (code_bug evaluation): on a relay board whose transport succeeds and
whose value register is zero, `open(0)` succeeds and sets bit 0 of the
value register, yet `is_open(0)` then returns the value `false` (the
source returns the negation of the register bit), and a second `open(0)`
changes nothing; the claim's `is_open(p) = true` fails after each call. -/
theorem C3_open_then_is_open_reports_false :
    ((MCP23017_RelayBoard.open_relay ⟨⟨0, 0, 0⟩, true, true, []⟩ 0).2.1 = false) ∧
    ((MCP23017_RelayBoard.open_relay ⟨⟨0, 0, 0⟩, true, true, []⟩ 0).1.regs.gpio = 1) ∧
    ((MCP23017_RelayBoard.is_open
        (MCP23017_RelayBoard.open_relay ⟨⟨0, 0, 0⟩, true, true, []⟩ 0).1 0).2
      = (false, "", false)) ∧
    ((MCP23017_RelayBoard.open_relay
        (MCP23017_RelayBoard.open_relay ⟨⟨0, 0, 0⟩, true, true, []⟩ 0).1 0).1.regs.gpio = 1) ∧
    ((MCP23017_RelayBoard.is_open
        (MCP23017_RelayBoard.open_relay
          (MCP23017_RelayBoard.open_relay ⟨⟨0, 0, 0⟩, true, true, []⟩ 0).1 0).1 0).2
      = (false, "", false)) := by
  decide

/-- C4 (confirmed): for every register value below 2^16, every port in
[0, 15] and every bit, on a transport whose reads and writes succeed,
`set_bit` followed by `get_bit` at the same port returns that bit, and
every other bit of the register is unchanged by `set_bit`. -/
theorem C4_set_get_round_trip (t : MCPBus) (port : Nat) (bit : Bool)
    (hreg : t.regs.gpio < 2 ^ 16) (hp : port ≤ 15)
    (hr : t.readOk = true) (hw : t.writeOk = true) :
    ((MCP23017_RelayBoard.get_bit (MCP23017_RelayBoard.set_bit t port bit).1 port).2
        = (false, "", bit)) ∧
    (∀ q, q ≤ 15 → q ≠ port →
      (MCP23017_RelayBoard.set_bit t port bit).1.regs.gpio.testBit q
        = t.regs.gpio.testBit q) := by
  constructor
  · simp [MCP23017_RelayBoard.set_bit, MCP23017_RelayBoard.get_bit,
      MCP23017_RelayBoard.read_gpio, MCP23017_RelayBoard.write_gpio, hr, hw,
      updateBit_testBit_self]
  · intro q _ hq
    simp [MCP23017_RelayBoard.set_bit, MCP23017_RelayBoard.read_gpio,
      MCP23017_RelayBoard.write_gpio, hr, hw, updateBit_testBit_other _ _ _ _ hq]

/-- C4 witness: a concrete round trip at register value 5, port 3, bit
`true`, with bit 0 preserved. -/
theorem C4_set_get_round_trip_witness :
    ((MCP23017_RelayBoard.get_bit
        (MCP23017_RelayBoard.set_bit ⟨⟨5, 0, 0⟩, true, true, []⟩ 3 true).1 3).2
      = (false, "", true)) ∧
    ((MCP23017_RelayBoard.set_bit ⟨⟨5, 0, 0⟩, true, true, []⟩ 3 true).1.regs.gpio.testBit 0
      = Nat.testBit 5 0) := by
  have h := C4_set_get_round_trip ⟨⟨5, 0, 0⟩, true, true, []⟩ 3 true
    (by decide) (by decide) rfl rfl
  exact ⟨h.1, h.2 0 (by decide) (by decide)⟩

/-- C6 (counterexample): port 16 lies outside [0, 15], yet `set_bit` on a
succeeding transport is not rejected: it performs a transport read and a
transport write (of a value with bit 16 set) and reports success, and
`get_bit` at port 16 performs a transport read; the claim's "reject
synchronously and perform no transport read or write" is false. -/
theorem C6_counterexample_port16_touches_transport :
    ((MCP23017_RelayBoard.set_bit ⟨⟨0, 0, 0⟩, true, true, []⟩ 16 true).2.1 = false) ∧
    ((MCP23017_RelayBoard.set_bit ⟨⟨0, 0, 0⟩, true, true, []⟩ 16 true).1.log
        = [TEvent.readGpio, TEvent.writeGpio 65536]) ∧
    ((MCP23017_GpioBoard.get_bit ⟨⟨0, 0, 0⟩, true, true, []⟩ 16).1.log
        = [TEvent.readGpio]) := by
  decide

/-- C6 (amended): for every port index 16 or larger, the register-port
operations perform no validation at all: on a succeeding transport,
`set_bit` of either board performs the transport read followed by the
transport write of the updated register and reports success, and `get_bit`
of either board performs the transport read and reports success. -/
theorem C6_amended_no_range_check (t : MCPBus) (port : Nat) (bit : Bool)
    (hp : 16 ≤ port) (hr : t.readOk = true) (hw : t.writeOk = true) :
    ((MCP23017_RelayBoard.set_bit t port bit).2.1 = false ∧
      (MCP23017_RelayBoard.set_bit t port bit).1.log =
        t.log ++ [TEvent.readGpio, TEvent.writeGpio (updateBit t.regs.gpio port bit)]) ∧
    ((MCP23017_GpioBoard.set_bit t port bit).2.1 = false ∧
      (MCP23017_GpioBoard.set_bit t port bit).1.log =
        t.log ++ [TEvent.readGpio, TEvent.writeGpio (updateBit t.regs.gpio port bit)]) ∧
    ((MCP23017_RelayBoard.get_bit t port).2.1 = false ∧
      (MCP23017_RelayBoard.get_bit t port).1.log = t.log ++ [TEvent.readGpio]) ∧
    ((MCP23017_GpioBoard.get_bit t port).2.1 = false ∧
      (MCP23017_GpioBoard.get_bit t port).1.log = t.log ++ [TEvent.readGpio]) := by
  refine ⟨⟨?_, ?_⟩, ⟨?_, ?_⟩, ⟨?_, ?_⟩, ⟨?_, ?_⟩⟩ <;>
    simp [MCP23017_RelayBoard.set_bit, MCP23017_RelayBoard.get_bit,
      MCP23017_RelayBoard.read_gpio, MCP23017_RelayBoard.write_gpio,
      MCP23017_GpioBoard.set_bit, MCP23017_GpioBoard.get_bit,
      MCP23017_GpioBoard.read_gpio, MCP23017_GpioBoard.write_gpio, hr, hw]

/-- C6 amended witness: the amended statement at port 16 on a concrete
succeeding transport. -/
theorem C6_amended_no_range_check_witness :
    (MCP23017_RelayBoard.set_bit ⟨⟨0, 0, 0⟩, true, true, []⟩ 16 true).2.1 = false :=
  (C6_amended_no_range_check ⟨⟨0, 0, 0⟩, true, true, []⟩ 16 true
    (by decide) rfl rfl).1.1

/-- C1 (counterexample): a Ready EC session at address 0x64, whose bus
scan succeeds and reports the address but whose transport write raises,
returns the error tuple from `read()` — yet its configured flag is NOT
cleared, contradicting the claimed demotion to Unready. -/
theorem C1_counterexample_read_failure_keeps_configured :
    ((atlas_ezo_ec_sensor.read ⟨0x64, true⟩ ⟨true, [0x64], true, false, some "14.50"⟩
        "20.0").2.1.1 = true) ∧
    ¬ ((atlas_ezo_ec_sensor.read ⟨0x64, true⟩ ⟨true, [0x64], true, false, some "14.50"⟩
        "20.0").1.configured = false) := by
  decide

/-- C1 (amended): if the transport write raises or the transport read
raises during `read()` of the EC or pH driver on a Ready (configured,
detected) session, the error tuple is returned but the whole session — in
particular the configured flag — is left unchanged; consequently any later
call to `read()` on a still-configured session re-runs only the detect
step and never the configure step (no device-construction event appears in
its trace, for any transport behaviour). -/
theorem C1_amended_read_failure_no_demotion (s : Session) (env : I2CEnv)
    (temp : String)
    (hconf : s.configured = true)
    (hscan : env.scanOk = true) (hdet : s.address ∈ env.devices)
    (hfail : env.writeOk = false ∨ env.readStr = none) :
    ((atlas_ezo_ec_sensor.read s env temp).2.1.1 = true ∧
     (atlas_ezo_ec_sensor.read s env temp).1 = s) ∧
    ((ezo_ph_sensor.read s env temp).2.1.1 = true ∧
     (ezo_ph_sensor.read s env temp).1 = s) ∧
    (∀ env2 temp2, SEvent.construct ∉ (atlas_ezo_ec_sensor.read s env2 temp2).2.2) ∧
    (∀ env2 temp2, SEvent.construct ∉ (ezo_ph_sensor.read s env2 temp2).2.2) := by
  refine ⟨?_, ?_,
    fun env2 temp2 => construct_not_mem_ec_read_trace s env2 temp2 hconf,
    fun env2 temp2 => construct_not_mem_ph_read_trace s env2 temp2 hconf⟩
  · by_cases hw : env.writeOk = false
    · simp [atlas_ezo_ec_sensor.read, atlas_ezo_ec_sensor.check_i2c_and_sensor,
        hconf, hscan, hdet, hw]
    · have hr : env.readStr = none := hfail.resolve_left hw
      simp [atlas_ezo_ec_sensor.read, atlas_ezo_ec_sensor.check_i2c_and_sensor,
        hconf, hscan, hdet, hw, hr]
  · by_cases hw : env.writeOk = false
    · simp [ezo_ph_sensor.read, ezo_ph_sensor.check_i2c_and_sensor,
        hconf, hscan, hdet, hw]
    · have hr : env.readStr = none := hfail.resolve_left hw
      simp [ezo_ph_sensor.read, ezo_ph_sensor.check_i2c_and_sensor,
        hconf, hscan, hdet, hw, hr]

/-- C1 amended witness: the amended statement at a concrete Ready session
whose transport read raises (the write succeeds). -/
theorem C1_amended_read_failure_no_demotion_witness :
    (atlas_ezo_ec_sensor.read ⟨0x64, true⟩ ⟨true, [0x64], true, true, none⟩
      "20.0").1 = ⟨0x64, true⟩ :=
  (C1_amended_read_failure_no_demotion ⟨0x64, true⟩
    ⟨true, [0x64], true, true, none⟩ "20.0" rfl rfl (by decide) (Or.inr rfl)).1.2

/-- C5 (confirmed): the ensure-ready sequence of the EC session proceeds
with this error precedence: a raising bus scan yields the scan error; a
succeeding scan that does not report the address yields the detection
error without ever running the configuration routine; a failing
configuration routine leaves the session Unready; a full success makes
the session Ready; and a session left Unready by a failed detection is
transitioned to Ready by a later successful scan+configure on the same
session object (its address is preserved). -/
theorem C5_ensure_ready_sequence (s : Session) (env env2 : I2CEnv) :
    (env.scanOk = false →
      atlas_ezo_ec_sensor.configure_sensor s env
        = ({ s with configured := false }, (true, "Error scanning I2C bus"),
           [SEvent.scan])) ∧
    (env.scanOk = true → s.address ∉ env.devices →
      (atlas_ezo_ec_sensor.configure_sensor s env).1 = { s with configured := false } ∧
      (atlas_ezo_ec_sensor.configure_sensor s env).2.1.1 = true ∧
      (atlas_ezo_ec_sensor.configure_sensor s env).2.2 = [SEvent.scan]) ∧
    (env.scanOk = true → s.address ∈ env.devices → env.configOk = false →
      (atlas_ezo_ec_sensor.configure_sensor s env).1 = { s with configured := false } ∧
      (atlas_ezo_ec_sensor.configure_sensor s env).2.1.1 = true) ∧
    (env.scanOk = true → s.address ∈ env.devices → env.configOk = true →
      (atlas_ezo_ec_sensor.configure_sensor s env).1 = { s with configured := true } ∧
      (atlas_ezo_ec_sensor.configure_sensor s env).2.1.1 = false) ∧
    (env.scanOk = true → s.address ∉ env.devices →
     env2.scanOk = true → s.address ∈ env2.devices → env2.configOk = true →
      (atlas_ezo_ec_sensor.configure_sensor
          (atlas_ezo_ec_sensor.configure_sensor s env).1 env2).1
        = { s with configured := true }) := by
  refine ⟨?_, ?_, ?_, ?_, ?_⟩
  · intro h1
    simp [atlas_ezo_ec_sensor.configure_sensor, atlas_ezo_ec_sensor.check_i2c_and_sensor, h1]
  · intro h1 h2
    simp [atlas_ezo_ec_sensor.configure_sensor, atlas_ezo_ec_sensor.check_i2c_and_sensor, h1, h2]
  · intro h1 h2 h3
    simp [atlas_ezo_ec_sensor.configure_sensor, atlas_ezo_ec_sensor.check_i2c_and_sensor, h1, h2, h3]
  · intro h1 h2 h3
    simp [atlas_ezo_ec_sensor.configure_sensor, atlas_ezo_ec_sensor.check_i2c_and_sensor, h1, h2, h3]
  · intro h1 h2 h3 h4 h5
    simp [atlas_ezo_ec_sensor.configure_sensor, atlas_ezo_ec_sensor.check_i2c_and_sensor,
      h1, h2, h3, h4, h5]

/-- C5 witness: a session that failed detection is made Ready by a later
successful scan+configure on the same session object. -/
theorem C5_ensure_ready_sequence_witness :
    (atlas_ezo_ec_sensor.configure_sensor
        (atlas_ezo_ec_sensor.configure_sensor ⟨0x64, false⟩
          ⟨true, [], true, true, none⟩).1
        ⟨true, [0x64], true, true, none⟩).1
      = ⟨0x64, true⟩ :=
  (C5_ensure_ready_sequence ⟨0x64, false⟩ ⟨true, [], true, true, none⟩
    ⟨true, [0x64], true, true, none⟩).2.2.2.2 rfl (by decide) rfl (by decide) rfl

/-- C7 (code_bug evaluation): on a detected, configured EC sensor
(ezo_ec_sensor.py), `calibrate("low", 7.0)` with a transport whose write
raises lets the exception propagate out of the public operation (the
calibration-command write stands outside the try/except), and
`calibrate("bogus", 7.0)` with a fully working transport raises
`AttributeError` (the message interpolates the undefined
`self._sensor_name`); neither returns the claimed typed error tuple. -/
theorem C7_ec_calibrate_exception_escapes :
    (ezo_ec_sensor.calibrate ⟨0x64, true⟩ ⟨true, [0x64], true, false, some "?CAL,1"⟩
        "low" "7.0"
      = Except.error "uncaught transport exception in calibrate()") ∧
    (ezo_ec_sensor.calibrate ⟨0x64, true⟩ ⟨true, [0x64], true, true, some "?CAL,1"⟩
        "bogus" "7.0"
      = Except.error "AttributeError: AtlasEzoEcSensor has no attribute _sensor_name") :=
  ⟨rfl, rfl⟩

/-- C8 (confirmed): on a transport whose read succeeds, every `get_bit`
of either board performs a fresh transport read (exactly one read event is
appended to the log) and returns the bit of the register value held by the
transport at call time, and every `set_bit` of either board performs the
fresh transport read first and then writes a value computed from that
freshly read register — never from any cached copy (the board wrappers
hold no register state at all). -/
theorem C8_fresh_register_read (t : MCPBus) (port : Nat) (bit : Bool)
    (hr : t.readOk = true) :
    ((MCP23017_RelayBoard.get_bit t port).1.log = t.log ++ [TEvent.readGpio] ∧
     (MCP23017_RelayBoard.get_bit t port).2 = (false, "", t.regs.gpio.testBit port)) ∧
    ((MCP23017_GpioBoard.get_bit t port).1.log = t.log ++ [TEvent.readGpio] ∧
     (MCP23017_GpioBoard.get_bit t port).2 = (false, "", t.regs.gpio.testBit port)) ∧
    ((MCP23017_RelayBoard.set_bit t port bit).1.log =
       t.log ++ [TEvent.readGpio, TEvent.writeGpio (updateBit t.regs.gpio port bit)]) ∧
    ((MCP23017_GpioBoard.set_bit t port bit).1.log =
       t.log ++ [TEvent.readGpio, TEvent.writeGpio (updateBit t.regs.gpio port bit)]) := by
  by_cases hw : t.writeOk = true <;>
    refine ⟨⟨?_, ?_⟩, ⟨?_, ?_⟩, ?_, ?_⟩ <;>
    simp [MCP23017_RelayBoard.set_bit, MCP23017_RelayBoard.get_bit,
      MCP23017_RelayBoard.read_gpio, MCP23017_RelayBoard.write_gpio,
      MCP23017_GpioBoard.set_bit, MCP23017_GpioBoard.get_bit,
      MCP23017_GpioBoard.read_gpio, MCP23017_GpioBoard.write_gpio, hr, hw]

/-- C8 witness: the fresh-read statement at a concrete transport whose
register holds 5. -/
theorem C8_fresh_register_read_witness :
    (MCP23017_RelayBoard.get_bit ⟨⟨5, 0, 0⟩, true, true, []⟩ 0).2
      = (false, "", Nat.testBit 5 0) :=
  (C8_fresh_register_read ⟨⟨5, 0, 0⟩, true, true, []⟩ 0 true rfl).1.2

/-- C9 (counterexample): a failed SCD30 read (address absent from the
scan) pairs the error flag with humidity and CO2 sentinel −99, not the
claimed −9. -/
theorem C9_counterexample_scd30_sentinels :
    ((sensor_scd30.read ⟨0x61, true⟩ ⟨true, [], true, true, true, 0, 0, 0⟩).2.1 = true) ∧
    ((sensor_scd30.read ⟨0x61, true⟩ ⟨true, [], true, true, true, 0, 0, 0⟩).2.2.2.2.1
        = -99) ∧
    ((sensor_scd30.read ⟨0x61, true⟩ ⟨true, [], true, true, true, 0, 0, 0⟩).2.2.2.2.2
        = -99) ∧
    ((-99 : Int) ≠ -9) := by
  decide

/-- C9 (amended): for every failed read — any session state and any
transport behaviour whose `read()` returns with the error flag set — each
numeric-measurement driver pairs the error flag with its fixed
out-of-domain sentinels: −99.9 for the EC, pH, pressure and the two air
sensors' temperature values; −9 for the DHT20's humidity and CO2; −99 for
the SCD30's humidity and CO2. -/
theorem C9_amended_sentinels (s : Session) (env : I2CEnv)
    (denv : sensor_dht20.DHTEnv) (cenv : sensor_scd30.SCDEnv) (temp : String) :
    ((atlas_ezo_ec_sensor.read s env temp).2.1.1 = true →
      (atlas_ezo_ec_sensor.read s env temp).2.1.2.2 = atlas_ezo_ec_sensor.INVALID_EC) ∧
    (atlas_ezo_ec_sensor.INVALID_EC = -999/10) ∧
    ((ezo_ph_sensor.read s env temp).2.1.1 = true →
      (ezo_ph_sensor.read s env temp).2.1.2.2 = -999/10) ∧
    ((ezo_pressure_sensor.read s env).2.1.1 = true →
      (ezo_pressure_sensor.read s env).2.1.2.2 = -999/10) ∧
    ((sensor_dht20.read s denv).2.1 = true →
      (sensor_dht20.read s denv).2.2.2.1 = sensor_dht20.INVALID_TEMPERATURE ∧
      (sensor_dht20.read s denv).2.2.2.2.1 = sensor_dht20.INVALID_HUMIDITY ∧
      (sensor_dht20.read s denv).2.2.2.2.2 = sensor_dht20.INVALID_CO2) ∧
    (sensor_dht20.INVALID_TEMPERATURE = -999/10 ∧
      sensor_dht20.INVALID_HUMIDITY = -9 ∧ sensor_dht20.INVALID_CO2 = -9) ∧
    ((sensor_scd30.read s cenv).2.1 = true →
      (sensor_scd30.read s cenv).2.2.2.1 = sensor_scd30.INVALID_TEMPERATURE ∧
      (sensor_scd30.read s cenv).2.2.2.2.1 = sensor_scd30.INVALID_HUMIDITY ∧
      (sensor_scd30.read s cenv).2.2.2.2.2 = sensor_scd30.INVALID_CO2) ∧
    (sensor_scd30.INVALID_TEMPERATURE = -999/10 ∧
      sensor_scd30.INVALID_HUMIDITY = -99 ∧ sensor_scd30.INVALID_CO2 = -99) :=
  ⟨ec_read_error_value s env temp, rfl, ph_read_error_value s env temp,
    pressure_read_error_value s env, dht20_read_error_sentinels s denv,
    ⟨rfl, rfl, rfl⟩, scd30_read_error_sentinels s cenv, ⟨rfl, rfl, rfl⟩⟩

/-- C9 amended witness: the amended statement applied to the DHT20 driver
pointed at an empty bus, a concrete failed read. -/
theorem C9_amended_sentinels_witness :
    (sensor_dht20.read ⟨0x38, true⟩ ⟨true, [], true, true, 0, 0⟩).2.2.2.2.1
      = sensor_dht20.INVALID_HUMIDITY :=
  ((C9_amended_sentinels ⟨0x38, true⟩ ⟨true, [], true, true, none⟩
    ⟨true, [], true, true, 0, 0⟩ ⟨true, [], true, true, true, 0, 0, 0⟩
    "20.0").2.2.2.2.1 (by decide)).2.1

/-- C10 (confirmed): on a detected, configured pH sensor, `calibrate` with
any command other than `mid`, `low`, `high`, `clear` returns the error
tuple carrying the fixed "Command is not valid" message and calibration
level `"0"`, leaves the session unchanged, and its trace holds only the
bus scan of the detection check — no device write and no device read. -/
theorem C10_invalid_calibrate_command (s : Session) (env : I2CEnv)
    (command pH : String)
    (hconf : s.configured = true)
    (hscan : env.scanOk = true) (hdet : s.address ∈ env.devices)
    (h1 : command ≠ "mid") (h2 : command ≠ "low") (h3 : command ≠ "high")
    (h4 : command ≠ "clear") :
    ezo_ph_sensor.calibrate s env command pH
      = (s, (true, ezo_ph_sensor.invalid_command_message s.address, "0"),
         [SEvent.scan]) := by
  simp [ezo_ph_sensor.calibrate, ezo_ph_sensor.check_i2c_and_sensor,
    hconf, hscan, hdet, h1, h2, h3, h4]

/-- C10 witness: the EC-only command `dry` is invalid for the pH driver. -/
theorem C10_invalid_calibrate_command_witness :
    ezo_ph_sensor.calibrate ⟨0x63, true⟩ ⟨true, [0x63], true, true, some "?CAL,2"⟩
        "dry" "7.0"
      = (⟨0x63, true⟩, (true, ezo_ph_sensor.invalid_command_message 0x63, "0"),
         [SEvent.scan]) :=
  C10_invalid_calibrate_command ⟨0x63, true⟩ ⟨true, [0x63], true, true, some "?CAL,2"⟩
    "dry" "7.0" rfl rfl (by decide) (by decide) (by decide) (by decide) (by decide)

end Hydro
